import Mathlib

/-!
# Verification of the sample_project SPA shell, greeting cycler and storage utilities

This file gives a shallow embedding of the JavaScript sources of the
repository and proves (or refutes) the behavioural claims of its
specification.

* `Utils.storage` and `Utils.format.template` embed the shared utility module
  (the namespaced `localStorage` wrapper and the `{key}` template replacer).
* The `Shell` section embeds `src/spa03/spa03.js`: the hash-routing shell
  with its loading-indicator timer, load-timeout timer, iframe load/error
  handlers and persisted last-visited page.
* The `Cycler` section embeds `src/spa02/spa02.js`: the multi-language
  greeting cycler with manual selection and the auto-cycle interval tick.

Host collaborators are modelled explicitly: `localStorage` is a partial map
from string keys to stored strings, `JSON.stringify`/`JSON.parse` for the
values stored by the pages are either the concrete string serializer
`stringifyJsString` or an arbitrary serializer/parser pair constrained by
the host JSON round-trip contract, browser timers are a set of live timer
ids with a fresh-id counter, and the DOM is reduced to the fields the
scripts read and write (document title, CSS classes toggled, text content).
-/

/-! ## Host model: localStorage -/

/-- The browser `localStorage`: a partial map from keys to stored strings. -/
def Store := String → Option String

/-- `localStorage.setItem`. -/
def Store.setItem (st : Store) (k v : String) : Store :=
  fun k2 => if k2 = k then some v else st k2

/-- `localStorage.getItem`. -/
def Store.getItem (st : Store) (k : String) : Option String := st k

/-- The empty `localStorage`. -/
def Store.empty : Store := fun _ => none

/-! ## Host model: JSON string serialization

The pages only ever store strings (`spaId`, a language code, the slider's
string value).  `JSON.stringify` on a string produces the quoted, escaped
form; we embed the quote/backslash escaping (control-character escapes are
irrelevant to the page ids and codes involved). -/

/-- Escaping of one character inside a JSON string literal. -/
def jsonEscapeChar (c : Char) : List Char :=
  if c = '"' then ['\\', '"'] else if c = '\\' then ['\\', '\\'] else [c]

/-- `JSON.stringify` on a string value: quote and escape. -/
def stringifyJsString (s : String) : String :=
  String.mk ('"' :: ((s.data.map jsonEscapeChar).flatten ++ ['"']))

/-! ## Utils.storage (shared utils, namespaced variant)

`set`/`get` prefix the key with `namespace + "."` when a (truthy) namespace
is given.  JavaScript truthiness makes both `null` and the empty string
fall back to the bare key; the `namespace` argument is therefore an
`Option String` whose `some ""` behaves like `none`.  `get` returns the
default when no entry exists, when the stored string is empty (falsy), or
when `JSON.parse` fails; exceptions are caught and logged, never rethrown,
which the embedding reflects by being a total function. -/

namespace Utils

/-- The `finalKey` computation shared by `storage.set`/`storage.get`:
`namespace ? namespace + "." + key : key`. -/
def finalKey (ns : Option String) (key : String) : String :=
  match ns with
  | some n => if n = "" then key else n ++ "." ++ key
  | none => key

/-- `Utils.storage.set(key, value, namespace)`.  The host `JSON.stringify`
for the stored value type is passed explicitly. -/
def storage.set {α : Type} (stringify : α → String) (key : String)
    (value : α) (ns : Option String) (st : Store) : Store :=
  st.setItem (finalKey ns key) (stringify value)

/-- `Utils.storage.get(key, defaultValue, namespace)`.  The host
`JSON.parse` is passed explicitly; `none` is a parse exception (caught,
default returned).  An empty stored string is falsy and also yields the
default. -/
def storage.get {α : Type} (parse : String → Option α) (key : String)
    (defaultValue : α) (ns : Option String) (st : Store) : α :=
  match st.getItem (finalKey ns key) with
  | none => defaultValue
  | some item =>
    if item = "" then defaultValue
    else
      match parse item with
      | some v => v
      | none => defaultValue

/-! ### Utils.format.template

`template.replace(/\{(\w+)\}/g, (match, key) => values[key] !== undefined ?
values[key] : match)`: scan left to right; at a `{` try to read a maximal
nonempty word-character run followed by `}`; on a match splice in the value
bound to the word (or keep the matched text when the key is absent) and
continue after the match; otherwise keep the character and move on. -/

/-- `\w` of the regex: ASCII alphanumeric or underscore. -/
def isWordChar (c : Char) : Bool := c.isAlphanum || c = '_'

/-- The `{` character (written via its code point throughout). -/
def lbraceChar : Char := Char.ofNat 123

/-- The `}` character. -/
def rbraceChar : Char := Char.ofNat 125

/-- JavaScript object property lookup `values[key]` for the replacement
object, `none` when the property is `undefined`. -/
def lookupVal (values : List (String × String)) (key : String) : Option String :=
  match values with
  | [] => none
  | (k, v) :: rest => if k = key then some v else lookupVal rest key

/-- Scanner for the template regex; the fuel argument (seeded with the
input length, an upper bound for every suffix scanned) makes the recursion
structural. -/
def templateGo (values : List (String × String)) : Nat → List Char → List Char
  | 0, _ => []
  | _ + 1, [] => []
  | fuel + 1, c :: rest =>
    if c = lbraceChar then
      let word := rest.takeWhile isWordChar
      match rest.dropWhile isWordChar with
      | rb :: rest2 =>
        if rb = rbraceChar && !word.isEmpty then
          (match lookupVal values (String.mk word) with
           | some v => v.data
           | none => c :: (word ++ [rb])) ++ templateGo values fuel rest2
        else c :: templateGo values fuel rest
      | [] => c :: templateGo values fuel rest
    else c :: templateGo values fuel rest

/-- `Utils.format.template(template, values)`. -/
def format.template (tmpl : String) (values : List (String × String)) : String :=
  String.mk (templateGo values tmpl.data.length tmpl.data)

end Utils

/-! ## Shell Router (src/spa03/spa03.js)

The shell's mutable `state` record, the DOM pieces it drives, and the two
browser timers it owns.  Timers are modelled by a set of live (scheduled,
not yet fired, not cancelled) timer ids paired with the callback each id
runs, plus a fresh-id counter; `clearTimeout` removes an id from the live
set, a timer can only fire while its id is live, and firing removes it
(one-shot). -/

/-- A `spaRoutes` entry: `{ path, title }`. -/
structure Route where
  path : String
  title : String
deriving DecidableEq

/-- Which of the two `loadSpa` callbacks a scheduled timer runs: the
deferred loading-indicator callback or the iframe-timeout callback. -/
inductive TimerKind where
  | indicator
  | timeout
deriving DecidableEq

/-- Configuration extracted from `spa03.json` metadata at startup:
the route table, timing settings, and the content strings the handlers
display. -/
structure ShellConfig where
  spaRoutes : List (String × Route)
  loadingDelay : Nat
  iframeTimeout : Nat
  mobileBreakpoint : Nat
  msgUnknown : String
  msgTimeout : String
  msgNotFound : String
  msgLoadFailed : String
  sidebarTitle : String

/-- `state.config.spaRoutes[spaId]`: property lookup in the route object. -/
def lookupRoute (routes : List (String × Route)) (spaId : String) : Option Route :=
  match routes with
  | [] => none
  | (k, r) :: rest => if k = spaId then some r else lookupRoute rest spaId

/-- The shell's `state` record together with the observable DOM effects
(`document.title`, the `show`/`active` classes, the iframe `src`) and the
timer system. -/
structure ShellState where
  currentSpa : Option String
  loading : Bool
  loadingTimeout : Option Nat
  iframeLoadTimeout : Option Nat
  isMobile : Bool
  sidebarOpen : Bool
  errorShown : Bool
  errorMessage : String
  loadingShown : Bool
  activeNav : Option String
  docTitle : String
  frameSrc : Option String
  store : Store
  timers : List (Nat × TimerKind)
  nextTimerId : Nat

/-- `clearTimeout(id)` on a possibly-`null` stored id: removes the id from
the live set; `clearTimeout(null)` and clearing an already fired or
cancelled id are no-ops. -/
def clearTimeoutOpt (timers : List (Nat × TimerKind)) : Option Nat → List (Nat × TimerKind)
  | none => timers
  | some id => timers.filter (fun t => t.1 ≠ id)

/-- `loadSpa(spaId)`.  Unknown id: show the templated unknown-app error and
return (no other state change).  Known id: clear both previous timers, set
`currentSpa`/`loading`, persist the id under `spa03.lastVisitedSpa`, hide
the error panel, schedule the loading-indicator timer then the timeout
timer (two fresh ids), update the active nav link, update the document
title (only when the route's title is truthy), and point the iframe at the
route's path. -/
def loadSpa (cfg : ShellConfig) (spaId : String) (s : ShellState) : ShellState :=
  match lookupRoute cfg.spaRoutes spaId with
  | none =>
    { s with
      errorShown := true
      errorMessage := Utils.format.template cfg.msgUnknown [("app", spaId)] }
  | some route =>
    let timers1 := clearTimeoutOpt s.timers s.loadingTimeout
    let timers2 := clearTimeoutOpt timers1 s.iframeLoadTimeout
    let id1 := s.nextTimerId
    let id2 := s.nextTimerId + 1
    { s with
      currentSpa := some spaId
      loading := true
      store := Utils.storage.set stringifyJsString "lastVisitedSpa" spaId (some "spa03") s.store
      errorShown := false
      loadingTimeout := some id1
      iframeLoadTimeout := some id2
      timers := (id2, TimerKind.timeout) :: (id1, TimerKind.indicator) :: timers2
      nextTimerId := s.nextTimerId + 2
      activeNav := some spaId
      docTitle := if route.title = "" then s.docTitle
                  else route.title ++ " - " ++ cfg.sidebarTitle
      frameSrc := some route.path }

/-- A timer with id `id` fires, provided it is still live.  The
loading-indicator callback shows the spinner if still loading; the timeout
callback shows the timeout error and hides the spinner if still loading.
Neither callback resets `state.loading`. -/
def fireTimer (cfg : ShellConfig) (s : ShellState) (id : Nat) : ShellState :=
  match s.timers.find? (fun t => t.1 = id) with
  | none => s
  | some tk =>
    let s1 := { s with timers := s.timers.filter (fun t => t.1 ≠ id) }
    match tk.2 with
    | TimerKind.indicator =>
      if s1.loading then { s1 with loadingShown := true } else s1
    | TimerKind.timeout =>
      if s1.loading then
        { s1 with
          errorShown := true
          errorMessage := cfg.msgTimeout
          loadingShown := false }
      else s1

/-- What `handleIframeLoad` can observe about the loaded document: a
same-origin document with a title and a body that may contain "404", or an
opaque cross-origin document (the inspection throws and is caught). -/
inductive FrameInspection where
  | accessible (title : String) (bodyHas404 : Bool)
  | crossOrigin

/-- `handleIframeLoad()`: clear both timers; when the document is
inspectable and reports an error page (`title === 'Error'` or the body
contains "404"), show the not-found error and return early, leaving
`loading` true and the indicator as it was; otherwise hide the indicator
and reset `loading`. -/
def handleIframeLoad (cfg : ShellConfig) (insp : FrameInspection) (s : ShellState) : ShellState :=
  let s1 :=
    { s with
      timers := clearTimeoutOpt (clearTimeoutOpt s.timers s.loadingTimeout) s.iframeLoadTimeout }
  match insp with
  | FrameInspection.accessible title bodyHas404 =>
    if title = "Error" || bodyHas404 then
      { s1 with errorShown := true, errorMessage := cfg.msgNotFound }
    else
      { s1 with loadingShown := false, loading := false }
  | FrameInspection.crossOrigin =>
    { s1 with loadingShown := false, loading := false }

/-- `handleIframeError()`: clear both timers, hide the indicator, show the
load-failure error.  `state.loading` is not reset. -/
def handleIframeError (cfg : ShellConfig) (s : ShellState) : ShellState :=
  let s1 :=
    { s with
      timers := clearTimeoutOpt (clearTimeoutOpt s.timers s.loadingTimeout) s.iframeLoadTimeout }
  { s1 with
    loadingShown := false
    errorShown := true
    errorMessage := cfg.msgLoadFailed }

/-- `handleHashChange()`: navigate to the new hash unless it is empty or
equals the page already current. -/
def handleHashChange (cfg : ShellConfig) (hash : String) (s : ShellState) : ShellState :=
  if hash ≠ "" ∧ some hash ≠ s.currentSpa then loadSpa cfg hash s else s

/-- `retryLoadSpa()`: reload the current page, if any. -/
def retryLoadSpa (cfg : ShellConfig) (s : ShellState) : ShellState :=
  match s.currentSpa with
  | some spaId => loadSpa cfg spaId s
  | none => s

/-- The events the host can deliver to the shell after initialization. -/
inductive ShellEvent where
  | hashChange (hash : String)
  | iframeLoaded (insp : FrameInspection)
  | iframeErrored
  | timerFired (id : Nat)
  | retryClicked

/-- One host event dispatched to the corresponding handler. -/
def shellStep (cfg : ShellConfig) (s : ShellState) : ShellEvent → ShellState
  | ShellEvent.hashChange h => handleHashChange cfg h s
  | ShellEvent.iframeLoaded insp => handleIframeLoad cfg insp s
  | ShellEvent.iframeErrored => handleIframeError cfg s
  | ShellEvent.timerFired id => fireTimer cfg s id
  | ShellEvent.retryClicked => retryLoadSpa cfg s

/-- Run a sequence of host events (single-threaded, in delivery order). -/
def runEvents (cfg : ShellConfig) (s : ShellState) : List ShellEvent → ShellState
  | [] => s
  | e :: es => runEvents cfg (shellStep cfg s e) es

/-! ## Greeting Cycler (src/spa02/spa02.js)

The `SPA02` state object together with the DOM pieces the script drives
(the greeting text and its `rtl` class, the select's value, the slider's
string value, the status line) and the repeating interval timer.  The
interval timer is modelled like the shell's timers: a set of live interval
ids and a fresh-id counter. -/

/-- A metadata language entry: `{ code, name, greeting, rtl }`. -/
structure LanguageEntry where
  code : String
  name : String
  greeting : String
  rtl : Bool
deriving DecidableEq

/-- Status strings and the speed unit read from `spa02.json` metadata. -/
structure CyclerConfig where
  statusCycling : String
  statusManual : String
  speedUnit : String

/-- The `SPA02` state plus observable DOM state and the interval timers. -/
structure CyclerState where
  languages : List LanguageEntry
  currentIndex : Int
  isCycling : Bool
  cycleInterval : Option Nat
  selectValue : String
  sliderValue : String
  greetingText : String
  greetingRtl : Bool
  statusText : String
  statusCyclingClass : Bool
  speedValueText : String
  store : Store
  liveIntervals : List Nat
  nextIntervalId : Nat

/-- `Array.prototype.find(lang => lang.code === langCode)`. -/
def jsFind (p : LanguageEntry → Bool) : List LanguageEntry → Option LanguageEntry
  | [] => none
  | l :: rest => if p l then some l else jsFind p rest

/-- `Array.prototype.findIndex` starting from position `k` (helper). -/
def jsFindIndexFrom (p : LanguageEntry → Bool) : Nat → List LanguageEntry → Int
  | _, [] => -1
  | k, l :: rest => if p l then (k : Int) else jsFindIndexFrom p (k + 1) rest

/-- `Array.prototype.findIndex(lang => lang.code === code)`: the index of
the first match, or `-1`. -/
def jsFindIndex (p : LanguageEntry → Bool) (ls : List LanguageEntry) : Int :=
  jsFindIndexFrom p 0 ls

/-- `updateGreeting(langCode)`: find the entry; if absent, log and return
(the display is untouched); otherwise set the greeting text and add or
remove the `rtl` class according to the entry's flag. -/
def updateGreeting (langCode : String) (s : CyclerState) : CyclerState :=
  match jsFind (fun l => l.code == langCode) s.languages with
  | none => s
  | some l => { s with greetingText := l.greeting, greetingRtl := l.rtl }

/-- `saveToStorage()`: persist the select's value under
`spa02.selectedLanguage` and the slider's value under `spa02.cycleSpeed`. -/
def saveToStorage (s : CyclerState) : CyclerState :=
  { s with
    store :=
      Utils.storage.set stringifyJsString "cycleSpeed" s.sliderValue (some "spa02")
        (Utils.storage.set stringifyJsString "selectedLanguage" s.selectValue (some "spa02")
          s.store) }

/-- `stopCycling()`: clear the interval if one is set, reset
`isCycling`, and switch the status line to the manual message. -/
def stopCycling (cfg : CyclerConfig) (s : CyclerState) : CyclerState :=
  let s1 :=
    match s.cycleInterval with
    | none => s
    | some id =>
      { s with
        liveIntervals := s.liveIntervals.filter (fun i => i ≠ id)
        cycleInterval := none }
  { s1 with
    isCycling := false
    statusText := cfg.statusManual
    statusCyclingClass := false }

/-- The language-selector `change` listener (the spec's
`selectLanguage(code)`): the select's value is the chosen code when the
event fires; then `stopCycling()`, `updateGreeting(code)`,
`saveToStorage()`, and `currentIndex = languages.findIndex(...)` (which is
`-1` when the code is absent). -/
def selectLanguage (cfg : CyclerConfig) (code : String) (s : CyclerState) : CyclerState :=
  let s1 := { s with selectValue := code }
  let s2 := stopCycling cfg s1
  let s3 := updateGreeting code s2
  let s4 := saveToStorage s3
  { s4 with currentIndex := jsFindIndex (fun l => l.code == code) s4.languages }

/-- One tick of the `setInterval` callback installed by `startCycling()`:
`currentIndex = (currentIndex + 1) % languages.length` (JavaScript `%` is
the truncated remainder, `Int.tmod`), then read `languages[currentIndex]`,
reflect its code in the select, update the greeting and persist.  On an
empty language list the JavaScript callback would fault reading
`undefined.code`; the embedding leaves everything but the index unchanged
in that unreachable case. -/
def cycleTick (s : CyclerState) : CyclerState :=
  let i : Int := (s.currentIndex + 1).tmod (s.languages.length : Int)
  match s.languages[i.toNat]? with
  | none => { s with currentIndex := i }
  | some l =>
    let s1 := { s with currentIndex := i, selectValue := l.code }
    let s2 := updateGreeting l.code s1
    saveToStorage s2

/-- `startCycling()`: clear any existing interval, schedule a fresh one at
the slider's speed, set `isCycling`, and switch the status line to the
cycling message. -/
def startCycling (cfg : CyclerConfig) (s : CyclerState) : CyclerState :=
  let s1 :=
    match s.cycleInterval with
    | none => s
    | some id => { s with liveIntervals := s.liveIntervals.filter (fun i => i ≠ id) }
  { s1 with
    cycleInterval := some s1.nextIntervalId
    liveIntervals := s1.nextIntervalId :: s1.liveIntervals
    nextIntervalId := s1.nextIntervalId + 1
    isCycling := true
    statusText := cfg.statusCycling
    statusCyclingClass := true }

/-! ## Helper lemmas -/

/-- Distinct namespace strings produce distinct namespaced keys for the
same key (the empty namespace is falsy and falls back to the bare key, and
a bare key is always shorter than any namespaced one). -/
theorem finalKey_ne_of_ns_ne (ns1 ns2 key : String) (h : ns1 ≠ ns2) :
    Utils.finalKey (some ns1) key ≠ Utils.finalKey (some ns2) key := by
  unfold Utils.finalKey
  by_cases h1 : ns1 = "" <;> by_cases h2 : ns2 = "" <;>
    simp only [h1, h2, if_pos, if_neg, ite_true, ite_false]
  · exact absurd (h1.trans h2.symm) h
  · intro heq
    have hlen := congrArg String.length heq
    rw [String.length_append, String.length_append] at hlen
    have : ns2.length = 0 ∨ key ≠ key := by
      left
      have hdot : (".":String).length = 1 := rfl
      omega
    rcases this with hz | hk
    · exact h2 (String.ext (List.length_eq_zero.mp hz))
    · exact hk rfl
  · intro heq
    have hlen := congrArg String.length heq
    rw [String.length_append, String.length_append] at hlen
    have hdot : (".":String).length = 1 := rfl
    omega
  · intro heq
    have hdata := congrArg String.data heq
    rw [String.data_append (ns1 ++ ".") key, String.data_append ns1 ".",
      String.data_append (ns2 ++ ".") key, String.data_append ns2 "."] at hdata
    rw [List.append_assoc, List.append_assoc] at hdata
    have := List.append_left_injective ((".":String).data ++ key.data) hdata
    exact h (String.ext this)

/-- A simple host `JSON.parse` for quoted strings containing no quote or
backslash, inverse to `stringifyJsString` on such strings; used to
instantiate the host-parser parameter on concrete inputs. -/
def parseJsStringSimple (s : String) : Option String :=
  match s.data with
  | '"' :: rest =>
    if rest ≠ [] ∧ rest.getLast? = some '"' ∧
        rest.dropLast.all (fun c => c ≠ '"' && c ≠ '\\') then
      some (String.mk rest.dropLast)
    else none
  | _ => none

/-! ## Claim theorems -/

/-- C6: Preference Store round-trip.  For every key, JSON-serializable
value (any value whose host serialization parses back to itself and is a
nonempty string — the `JSON.stringify`/`JSON.parse` contract) and
namespace, `set(key, value, ns)` followed by `get(key, default, ns)`
returns the stored value, and a `set` of the same key under any other
namespace leaves what `get` returns under `ns` unchanged.  (Failure paths
are caught inside `set`/`get`, which the embedding reflects by their being
total functions.) -/
theorem storage_roundtrip_namespaced {α β : Type}
    (stringify : α → String) (parse : String → Option α)
    (key : String) (value : α) (d : α) (ns : String) (st : Store)
    (hparse : parse (stringify value) = some value)
    (hne : stringify value ≠ "") :
    Utils.storage.get parse key d (some ns)
        (Utils.storage.set stringify key value (some ns) st) = value ∧
    ∀ (stringify2 : β → String) (w : β) (ns2 : String), ns ≠ ns2 →
      Utils.storage.get parse key d (some ns)
          (Utils.storage.set stringify2 key w (some ns2) st)
        = Utils.storage.get parse key d (some ns) st := by
  constructor
  · unfold Utils.storage.get Utils.storage.set Store.getItem Store.setItem
    simp [hparse, hne]
  · intro stringify2 w ns2 hns
    unfold Utils.storage.get Utils.storage.set Store.getItem Store.setItem
    rw [if_neg (finalKey_ne_of_ns_ne ns ns2 key hns)]

/-- Witness for C6 at concrete inputs: storing `"home"` under namespace
`spa02` and reading it back yields `"home"`, while a store of the same key
under namespace `spa03` does not affect a read under `spa02`. -/
theorem storage_roundtrip_namespaced_witness :
    Utils.storage.get parseJsStringSimple "lastVisitedSpa" "fallback" (some "spa02")
        (Utils.storage.set stringifyJsString "lastVisitedSpa" "home" (some "spa02")
          Store.empty) = "home" ∧
    Utils.storage.get parseJsStringSimple "lastVisitedSpa" "fallback" (some "spa02")
        (Utils.storage.set stringifyJsString "lastVisitedSpa" "lang" (some "spa03")
          Store.empty)
      = Utils.storage.get parseJsStringSimple "lastVisitedSpa" "fallback" (some "spa02")
          Store.empty := by
  have h := storage_roundtrip_namespaced (β := String) stringifyJsString parseJsStringSimple
    "lastVisitedSpa" "home" "fallback" "spa02" Store.empty (by decide) (by decide)
  exact ⟨h.1, h.2 stringifyJsString "lang" "spa03" (by decide)⟩

/-- C10: `Utils.storage.get` is total (the embedding is a total function;
the `try`/`catch` in the source logs and returns instead of throwing) and
returns the parsed stored value when a parseable (hence nonempty) string is
present under the namespaced key, the default when no entry exists, and the
default when the stored string does not parse as JSON. -/
theorem storage_get_total {α : Type} (parse : String → Option α)
    (key : String) (d : α) (ns : Option String) (st : Store) :
    (st.getItem (Utils.finalKey ns key) = none →
      Utils.storage.get parse key d ns st = d) ∧
    (∀ item v, st.getItem (Utils.finalKey ns key) = some item → item ≠ "" →
      parse item = some v → Utils.storage.get parse key d ns st = v) ∧
    (∀ item, st.getItem (Utils.finalKey ns key) = some item →
      parse item = none → Utils.storage.get parse key d ns st = d) := by
  refine ⟨fun hnone => ?_, fun item v hsome hne hp => ?_, fun item hsome hp => ?_⟩
  · unfold Utils.storage.get
    rw [hnone]
  · unfold Utils.storage.get
    rw [hsome]
    simp only [if_neg hne, hp]
  · unfold Utils.storage.get
    rw [hsome]
    by_cases hne : item = ""
    · simp only [hne, ite_true]
    · simp only [if_neg hne, hp]

/-- Witness for C10 at concrete inputs: a parseable entry is returned, a
missing key and an unparseable entry both yield the default. -/
theorem storage_get_total_witness :
    Utils.storage.get parseJsStringSimple "selectedLanguage" "en" (some "spa02")
        ((Store.empty.setItem "spa02.cycleSpeed" "not json").setItem
          "spa02.selectedLanguage" (stringifyJsString "ja")) = "ja" ∧
    Utils.storage.get parseJsStringSimple "cycleSpeed" "en" (some "spa02")
        ((Store.empty.setItem "spa02.cycleSpeed" "not json").setItem
          "spa02.selectedLanguage" (stringifyJsString "ja")) = "en" ∧
    Utils.storage.get parseJsStringSimple "missing" "en" (some "spa02")
        ((Store.empty.setItem "spa02.cycleSpeed" "not json").setItem
          "spa02.selectedLanguage" (stringifyJsString "ja")) = "en" := by
  refine ⟨?_, ?_, ?_⟩
  · exact (storage_get_total parseJsStringSimple "selectedLanguage" "en" (some "spa02")
      _).2.1 (stringifyJsString "ja") "ja" (by decide) (by decide) (by decide)
  · exact (storage_get_total parseJsStringSimple "cycleSpeed" "en" (some "spa02")
      _).2.2 "not json" (by decide) (by decide)
  · exact (storage_get_total parseJsStringSimple "missing" "en" (some "spa02")
      _).1 (by decide)

/-! ### Shell helper lemmas: stores and timer freshness -/

/-- `handleIframeLoad` never touches `localStorage`. -/
theorem handleIframeLoad_store (cfg : ShellConfig) (insp : FrameInspection) (s : ShellState) :
    (handleIframeLoad cfg insp s).store = s.store := by
  unfold handleIframeLoad
  cases insp with
  | accessible t b =>
    by_cases h : t = "Error" || b <;> simp [h]
  | crossOrigin => rfl

/-- `handleIframeError` never touches `localStorage`. -/
theorem handleIframeError_store (cfg : ShellConfig) (s : ShellState) :
    (handleIframeError cfg s).store = s.store := rfl

/-- A firing timer callback never touches `localStorage`. -/
theorem fireTimer_store (cfg : ShellConfig) (s : ShellState) (id : Nat) :
    (fireTimer cfg s id).store = s.store := by
  unfold fireTimer
  rcases h : s.timers.find? (fun t => t.1 = id) with _ | ⟨tid, tks⟩ <;> rw [h]
  cases tks <;> by_cases hl : s.loading <;> simp [hl]

/-- Clearing a timeout only removes live timers. -/
theorem mem_clearTimeoutOpt {ts : List (Nat × TimerKind)} {o : Option Nat}
    {t : Nat × TimerKind} (h : t ∈ clearTimeoutOpt ts o) : t ∈ ts := by
  cases o with
  | none => exact h
  | some id => exact List.mem_of_mem_filter h

/-- Any timer live after `loadSpa` was already live or is fresh. -/
theorem mem_loadSpa_timers (cfg : ShellConfig) (x : String) (s : ShellState)
    (t : Nat × TimerKind) (h : t ∈ (loadSpa cfg x s).timers) :
    t ∈ s.timers ∨ s.nextTimerId ≤ t.1 := by
  unfold loadSpa at h
  rcases hl : lookupRoute cfg.spaRoutes x with _ | route <;> rw [hl] at h
  · exact Or.inl h
  · simp only [List.mem_cons] at h
    rcases h with rfl | h
    · right; omega
    rcases h with rfl | h
    · right; omega
    · exact Or.inl (mem_clearTimeoutOpt (mem_clearTimeoutOpt h))

/-- `loadSpa` never lowers the fresh-id counter. -/
theorem loadSpa_next_mono (cfg : ShellConfig) (x : String) (s : ShellState) :
    s.nextTimerId ≤ (loadSpa cfg x s).nextTimerId := by
  unfold loadSpa
  rcases hl : lookupRoute cfg.spaRoutes x with _ | route
  · exact Nat.le_refl _
  · dsimp only
    omega

/-- Any timer live after a host event was already live or is fresh. -/
theorem mem_shellStep_timers (cfg : ShellConfig) (s : ShellState) (e : ShellEvent)
    (t : Nat × TimerKind) (h : t ∈ (shellStep cfg s e).timers) :
    t ∈ s.timers ∨ s.nextTimerId ≤ t.1 := by
  cases e with
  | hashChange hash =>
    simp only [shellStep] at h
    unfold handleHashChange at h
    split at h
    · exact mem_loadSpa_timers cfg hash s t h
    · exact Or.inl h
  | iframeLoaded insp =>
    simp only [shellStep] at h
    unfold handleIframeLoad at h
    cases insp with
    | accessible ti b =>
      dsimp only at h
      split at h <;> exact Or.inl (mem_clearTimeoutOpt (mem_clearTimeoutOpt h))
    | crossOrigin => exact Or.inl (mem_clearTimeoutOpt (mem_clearTimeoutOpt h))
  | iframeErrored =>
    simp only [shellStep] at h
    unfold handleIframeError at h
    exact Or.inl (mem_clearTimeoutOpt (mem_clearTimeoutOpt h))
  | timerFired id =>
    simp only [shellStep] at h
    unfold fireTimer at h
    rcases hf : s.timers.find? (fun t => t.1 = id) with _ | ⟨tid, tks⟩ <;> rw [hf] at h
    · exact Or.inl h
    · cases tks <;> dsimp only at h <;> split at h <;>
        exact Or.inl (List.mem_of_mem_filter h)
  | retryClicked =>
    simp only [shellStep] at h
    unfold retryLoadSpa at h
    rcases hc : s.currentSpa with _ | spaId <;> rw [hc] at h
    · exact Or.inl h
    · exact mem_loadSpa_timers cfg spaId s t h

/-- No host event lowers the fresh-id counter. -/
theorem shellStep_next_mono (cfg : ShellConfig) (s : ShellState) (e : ShellEvent) :
    s.nextTimerId ≤ (shellStep cfg s e).nextTimerId := by
  cases e with
  | hashChange hash =>
    simp only [shellStep]
    unfold handleHashChange
    split
    · exact loadSpa_next_mono cfg hash s
    · exact Nat.le_refl _
  | iframeLoaded insp =>
    simp only [shellStep]
    unfold handleIframeLoad
    cases insp with
    | accessible ti b =>
      dsimp only
      split <;> exact Nat.le_refl _
    | crossOrigin => exact Nat.le_refl _
  | iframeErrored => exact Nat.le_refl _
  | timerFired id =>
    simp only [shellStep]
    unfold fireTimer
    rcases hf : s.timers.find? (fun t => t.1 = id) with _ | ⟨tid, tks⟩ <;> rw [hf]
    cases tks <;> dsimp only <;> split <;> exact Nat.le_refl _
  | retryClicked =>
    simp only [shellStep]
    unfold retryLoadSpa
    rcases hc : s.currentSpa with _ | spaId
    · exact Nat.le_refl _
    · exact loadSpa_next_mono cfg spaId s


/-- A timer id that is dead (not live) and older than the fresh-id counter
stays dead across any sequence of host events: it can never fire. -/
theorem runEvents_timer_dead (cfg : ShellConfig) (id : Nat) :
    ∀ (es : List ShellEvent) (s : ShellState), id < s.nextTimerId →
      (∀ t ∈ s.timers, t.1 ≠ id) →
      ∀ t ∈ (runEvents cfg s es).timers, t.1 ≠ id := by
  intro es
  induction es with
  | nil => intro s _ h2; exact h2
  | cons e es ih =>
    intro s h1 h2
    refine ih (shellStep cfg s e) (Nat.lt_of_lt_of_le h1 (shellStep_next_mono cfg s e)) ?_
    intro t ht
    rcases mem_shellStep_timers cfg s e t ht with hmem | hge
    · exact h2 t hmem
    · omega

/-! ### Concrete fixtures for witnesses -/

/-- A concrete route table mirroring the demo navigation metadata. -/
def demoRoutes : List (String × Route) :=
  [("home", { path := "../spa01/spa01.html", title := "Home" }),
   ("lang", { path := "../spa02/spa02.html", title := "Multi-Language" })]

/-- A concrete shell configuration for evaluating the model. -/
def demoShellConfig : ShellConfig :=
  { spaRoutes := demoRoutes
    loadingDelay := 300
    iframeTimeout := 10000
    mobileBreakpoint := 768
    msgUnknown := "Unknown application: {app}"
    msgTimeout := "The application took too long to load."
    msgNotFound := "Application content not found."
    msgLoadFailed := "Failed to load the application."
    sidebarTitle := "SPA Hub" }

/-- A concrete quiescent state: `home` loaded, no error, no live timers. -/
def demoLoadedState : ShellState :=
  { currentSpa := some "home"
    loading := false
    loadingTimeout := none
    iframeLoadTimeout := none
    isMobile := false
    sidebarOpen := false
    errorShown := false
    errorMessage := ""
    loadingShown := false
    activeNav := some "home"
    docTitle := "Home - SPA Hub"
    frameSrc := some "../spa01/spa01.html"
    store := Store.empty
    timers := []
    nextTimerId := 0 }

/-- C1: navigating (via the hash-change entry point, the shell's public
navigation operation) to the page that is already current is a no-op: the
handler compares the hash against `currentSpa` and does not call `loadSpa`,
so no timer is scheduled, no Preference Store write happens, and the whole
`ShellState` is returned unchanged. -/
theorem handleHashChange_current_noop (cfg : ShellConfig) (x : String) (s : ShellState)
    (hvalid : lookupRoute cfg.spaRoutes x ≠ none)
    (hcur : s.currentSpa = some x)
    (hloaded : s.loading = false)
    (hnoerr : s.errorShown = false) :
    handleHashChange cfg x s = s := by
  unfold handleHashChange
  rw [hcur, if_neg]
  intro hcond
  exact hcond.2 rfl

/-- Witness for C1: with the demo configuration, a hash change to the
already-current `home` page leaves the state literally unchanged. -/
theorem handleHashChange_current_noop_witness :
    handleHashChange demoShellConfig "home" demoLoadedState = demoLoadedState :=
  handleHashChange_current_noop demoShellConfig "home" demoLoadedState
    (by decide) rfl rfl rfl

/-- C3: `loadSpa` on an id absent from the route table shows the error
panel with the unknown-app message templated with the offending id and
changes nothing else: `currentSpa`, `loading`, both stored timer ids, the
live timer set, the persisted store and the iframe target all stay as they
were. -/
theorem loadSpa_unknown_route (cfg : ShellConfig) (spaId : String) (s : ShellState)
    (hunknown : lookupRoute cfg.spaRoutes spaId = none) :
    (loadSpa cfg spaId s).currentSpa = s.currentSpa ∧
    (loadSpa cfg spaId s).loading = s.loading ∧
    (loadSpa cfg spaId s).timers = s.timers ∧
    (loadSpa cfg spaId s).loadingTimeout = s.loadingTimeout ∧
    (loadSpa cfg spaId s).iframeLoadTimeout = s.iframeLoadTimeout ∧
    (loadSpa cfg spaId s).store = s.store ∧
    (loadSpa cfg spaId s).frameSrc = s.frameSrc ∧
    (loadSpa cfg spaId s).errorShown = true ∧
    (loadSpa cfg spaId s).errorMessage
      = Utils.format.template cfg.msgUnknown [("app", spaId)] := by
  unfold loadSpa
  rw [hunknown]
  exact ⟨rfl, rfl, rfl, rfl, rfl, rfl, rfl, rfl, rfl⟩

/-- Witness for C3: navigating to the unknown id `bogus` leaves `home`
current and renders the templated message with `bogus` spliced in. -/
theorem loadSpa_unknown_route_witness :
    (loadSpa demoShellConfig "bogus" demoLoadedState).currentSpa = some "home" ∧
    (loadSpa demoShellConfig "bogus" demoLoadedState).loading = false ∧
    (loadSpa demoShellConfig "bogus" demoLoadedState).timers = [] ∧
    (loadSpa demoShellConfig "bogus" demoLoadedState).errorMessage
      = "Unknown application: bogus" := by
  have h := loadSpa_unknown_route demoShellConfig "bogus" demoLoadedState (by decide)
  refine ⟨?_, ?_, ?_, ?_⟩
  · rw [h.1]; rfl
  · rw [h.2.1]; rfl
  · rw [h.2.2.1]; rfl
  · rw [h.2.2.2.2.2.2.2.2]
    decide

/-- The valid branch of `loadSpa`, written out as a record update. -/
theorem loadSpa_valid_eq (cfg : ShellConfig) (spaId : String) (s : ShellState)
    (route : Route) (hroute : lookupRoute cfg.spaRoutes spaId = some route) :
    loadSpa cfg spaId s =
      { s with
        currentSpa := some spaId
        loading := true
        store := Utils.storage.set stringifyJsString "lastVisitedSpa" spaId (some "spa03") s.store
        errorShown := false
        loadingTimeout := some s.nextTimerId
        iframeLoadTimeout := some (s.nextTimerId + 1)
        timers := (s.nextTimerId + 1, TimerKind.timeout) ::
          (s.nextTimerId, TimerKind.indicator) ::
          clearTimeoutOpt (clearTimeoutOpt s.timers s.loadingTimeout) s.iframeLoadTimeout
        nextTimerId := s.nextTimerId + 2
        activeNav := some spaId
        docTitle := if route.title = "" then s.docTitle
                    else route.title ++ " - " ++ cfg.sidebarTitle
        frameSrc := some route.path } := by
  unfold loadSpa
  rw [hroute]

/-- Clearing any timeout over an empty live set is a no-op. -/
theorem clearTimeoutOpt_nil (o : Option Nat) : clearTimeoutOpt [] o = [] := by
  cases o <;> rfl

/-- Clearing the two freshly scheduled ids of a navigation kills both. -/
theorem clearTimeoutOpt_fresh_pair (n : Nat) :
    clearTimeoutOpt (clearTimeoutOpt
        [(n + 1, TimerKind.timeout), (n, TimerKind.indicator)] (some n)) (some (n + 1))
      = [] := by
  simp [clearTimeoutOpt, List.filter]

/-- C9: `loadSpa` on a valid id persists the id under
`spa03.lastVisitedSpa` at request time (the write is part of `loadSpa`
itself, before any resolution), and no resolution event (load signal,
error signal, or a firing timer) writes to the store; hence the persisted
last-visited page is the most recently requested navigation, even when
that navigation later fails, times out, or is superseded. -/
theorem loadSpa_persists_at_request (cfg : ShellConfig) (spaId : String) (s : ShellState)
    (route : Route) (hroute : lookupRoute cfg.spaRoutes spaId = some route) :
    (loadSpa cfg spaId s).store (Utils.finalKey (some "spa03") "lastVisitedSpa")
      = some (stringifyJsString spaId) ∧
    (∀ (s2 : ShellState) (insp : FrameInspection),
      (handleIframeLoad cfg insp s2).store = s2.store) ∧
    (∀ (s2 : ShellState), (handleIframeError cfg s2).store = s2.store) ∧
    (∀ (s2 : ShellState) (id : Nat), (fireTimer cfg s2 id).store = s2.store) := by
  refine ⟨?_, fun s2 insp => handleIframeLoad_store cfg insp s2,
    fun s2 => handleIframeError_store cfg s2,
    fun s2 id => fireTimer_store cfg s2 id⟩
  rw [loadSpa_valid_eq cfg spaId s route hroute]
  unfold Utils.storage.set Store.setItem
  dsimp only
  rw [if_pos rfl]

/-- Witness for C9: navigating to `lang` stores the serialized id, and an
immediately following load failure leaves the stored value in place. -/
theorem loadSpa_persists_at_request_witness :
    (loadSpa demoShellConfig "lang" demoLoadedState).store
        (Utils.finalKey (some "spa03") "lastVisitedSpa")
      = some (stringifyJsString "lang") ∧
    (handleIframeError demoShellConfig (loadSpa demoShellConfig "lang" demoLoadedState)).store
        (Utils.finalKey (some "spa03") "lastVisitedSpa")
      = some (stringifyJsString "lang") := by
  have h := loadSpa_persists_at_request demoShellConfig "lang" demoLoadedState
    { path := "../spa02/spa02.html", title := "Multi-Language" } (by decide)
  refine ⟨h.1, ?_⟩
  rw [h.2.2.1 (loadSpa demoShellConfig "lang" demoLoadedState)]
  exact h.1

/-- Counterexample to C2 as stated: after a valid navigation, the
load-failure resolution (`handleIframeError`) leaves `state.loading` true —
the handler hides the indicator and shows the error but never resets the
flag (and neither do the not-found path nor the timeout callback). -/
theorem iframeError_leaves_loading_true :
    (handleIframeError demoShellConfig
      (loadSpa demoShellConfig "lang" demoLoadedState)).loading = true := by
  rfl

/-- C2 amended: after a valid navigation from a quiescent state, only the
successful load signal (inspectable non-error document, or the opaque
cross-origin case) resets `isLoading` to false, and it also cancels both
pending timers; the content-not-found detection and the load-failure
signal cancel both timers and show their error panels but leave
`isLoading` true, and the timeout firing shows the timeout error and
hides the loading indicator while likewise leaving `isLoading` true —
and it cancels neither stored id, so the indicator timer stays pending
after it. -/
theorem resolution_events_loading_spec (cfg : ShellConfig) (spaId : String)
    (s : ShellState) (route : Route)
    (hroute : lookupRoute cfg.spaRoutes spaId = some route)
    (htimers : s.timers = []) :
    (∀ dt, dt ≠ "Error" →
      (handleIframeLoad cfg (FrameInspection.accessible dt false)
          (loadSpa cfg spaId s)).loading = false ∧
      (handleIframeLoad cfg (FrameInspection.accessible dt false)
          (loadSpa cfg spaId s)).timers = []) ∧
    ((handleIframeLoad cfg FrameInspection.crossOrigin (loadSpa cfg spaId s)).loading
        = false ∧
     (handleIframeLoad cfg FrameInspection.crossOrigin (loadSpa cfg spaId s)).timers = []) ∧
    (∀ dt b, (dt = "Error" ∨ b = true) →
      (handleIframeLoad cfg (FrameInspection.accessible dt b)
          (loadSpa cfg spaId s)).loading = true ∧
      (handleIframeLoad cfg (FrameInspection.accessible dt b)
          (loadSpa cfg spaId s)).timers = [] ∧
      (handleIframeLoad cfg (FrameInspection.accessible dt b)
          (loadSpa cfg spaId s)).errorShown = true) ∧
    ((handleIframeError cfg (loadSpa cfg spaId s)).loading = true ∧
     (handleIframeError cfg (loadSpa cfg spaId s)).timers = [] ∧
     (handleIframeError cfg (loadSpa cfg spaId s)).errorShown = true) ∧
    ((fireTimer cfg (loadSpa cfg spaId s) (s.nextTimerId + 1)).loading = true ∧
     (fireTimer cfg (loadSpa cfg spaId s) (s.nextTimerId + 1)).errorShown = true ∧
     (fireTimer cfg (loadSpa cfg spaId s) (s.nextTimerId + 1)).loadingShown = false ∧
     (fireTimer cfg (loadSpa cfg spaId s) (s.nextTimerId + 1)).timers
       = [(s.nextTimerId, TimerKind.indicator)]) := by
  rw [loadSpa_valid_eq cfg spaId s route hroute, htimers, clearTimeoutOpt_nil,
    clearTimeoutOpt_nil]
  refine ⟨fun dt hdt => ?_, ?_, fun dt b hdb => ?_, ?_, ?_⟩
  · unfold handleIframeLoad
    dsimp only
    rw [clearTimeoutOpt_fresh_pair]
    simp [hdt]
  · unfold handleIframeLoad
    dsimp only
    rw [clearTimeoutOpt_fresh_pair]
    simp
  · unfold handleIframeLoad
    dsimp only
    rw [clearTimeoutOpt_fresh_pair]
    rcases hdb with rfl | rfl <;> simp
  · unfold handleIframeError
    dsimp only
    rw [clearTimeoutOpt_fresh_pair]
    simp
  · unfold fireTimer
    dsimp only
    rw [List.find?_cons_of_pos _ (by simp)]
    simp

/-- Witness for C2's amended theorem: concrete success and failure
resolutions after navigating to `lang`. -/
theorem resolution_events_loading_spec_witness :
    (handleIframeLoad demoShellConfig (FrameInspection.accessible "Multi-Language" false)
        (loadSpa demoShellConfig "lang" demoLoadedState)).loading = false ∧
    (handleIframeError demoShellConfig
        (loadSpa demoShellConfig "lang" demoLoadedState)).timers = [] := by
  have h := resolution_events_loading_spec demoShellConfig "lang" demoLoadedState
    { path := "../spa02/spa02.html", title := "Multi-Language" } (by decide) rfl
  exact ⟨(h.1 "Multi-Language" (by decide)).1, h.2.2.2.1.2.1⟩

/-- C4: superseding navigation.  `loadSpa(b)` issued while `loadSpa(a)` is
still in flight first cancels both of `a`'s timers (`clearTimeout` on the
two stored ids) and only then schedules `b`'s pair, so afterwards exactly
`b`'s two timers are live; and since dead ids are never rescheduled (fresh
ids only count up), neither of `a`'s timers is live after any further
sequence of host events — they can never fire. -/
theorem loadSpa_supersede_timers (cfg : ShellConfig) (a b : String) (s : ShellState)
    (ra rb : Route)
    (ha : lookupRoute cfg.spaRoutes a = some ra)
    (hb : lookupRoute cfg.spaRoutes b = some rb)
    (htimers : s.timers = []) :
    (loadSpa cfg b (loadSpa cfg a s)).timers
      = [(s.nextTimerId + 3, TimerKind.timeout), (s.nextTimerId + 2, TimerKind.indicator)] ∧
    ∀ (es : List ShellEvent) (t : Nat × TimerKind),
      t ∈ (runEvents cfg (loadSpa cfg b (loadSpa cfg a s)) es).timers →
      t.1 ≠ s.nextTimerId ∧ t.1 ≠ s.nextTimerId + 1 := by
  have h1 := loadSpa_valid_eq cfg a s ra ha
  have h2 := loadSpa_valid_eq cfg b (loadSpa cfg a s) rb hb
  have htimers2 : (loadSpa cfg b (loadSpa cfg a s)).timers
      = [(s.nextTimerId + 3, TimerKind.timeout),
         (s.nextTimerId + 2, TimerKind.indicator)] := by
    rw [h2, h1]
    dsimp only
    rw [htimers, clearTimeoutOpt_nil, clearTimeoutOpt_nil, clearTimeoutOpt_fresh_pair]
  have hnext : (loadSpa cfg b (loadSpa cfg a s)).nextTimerId = s.nextTimerId + 4 := by
    rw [h2, h1]
  have hdead : ∀ id2, id2 < s.nextTimerId + 2 →
      ∀ t2 ∈ (loadSpa cfg b (loadSpa cfg a s)).timers, t2.1 ≠ id2 := by
    intro id2 hid t2 ht2
    rw [htimers2] at ht2
    simp only [List.mem_cons, List.not_mem_nil, or_false] at ht2
    rcases ht2 with rfl | rfl <;> dsimp only <;> omega
  refine ⟨htimers2, fun es t ht => ⟨?_, ?_⟩⟩
  · exact runEvents_timer_dead cfg s.nextTimerId es _
      (by rw [hnext]; omega) (hdead s.nextTimerId (by omega)) t ht
  · exact runEvents_timer_dead cfg (s.nextTimerId + 1) es _
      (by rw [hnext]; omega) (hdead (s.nextTimerId + 1) (by omega)) t ht

/-- Witness for C4: navigating `home` then immediately `lang` from the
fresh demo state leaves exactly the second navigation's timer pair (ids 2
and 3) live, and after a further event the live timer with id 3 is not one
of the first navigation's ids (0 and 1). -/
theorem loadSpa_supersede_timers_witness :
    (loadSpa demoShellConfig "lang" (loadSpa demoShellConfig "home" demoLoadedState)).timers
      = [(3, TimerKind.timeout), (2, TimerKind.indicator)] ∧
    ((3 : Nat) ≠ 0 ∧ (3 : Nat) ≠ 1) := by
  have h := loadSpa_supersede_timers demoShellConfig "home" "lang" demoLoadedState
    { path := "../spa01/spa01.html", title := "Home" }
    { path := "../spa02/spa02.html", title := "Multi-Language" }
    (by decide) (by decide) rfl
  refine ⟨h.1, h.2 [ShellEvent.timerFired 0] (3, TimerKind.timeout) ?_⟩
  rw [runEvents, runEvents]
  have hstep : shellStep demoShellConfig
      (loadSpa demoShellConfig "lang" (loadSpa demoShellConfig "home" demoLoadedState))
      (ShellEvent.timerFired 0)
      = loadSpa demoShellConfig "lang" (loadSpa demoShellConfig "home" demoLoadedState) := by
    simp only [shellStep]
    unfold fireTimer
    rw [h.1]
    rfl
  rw [hstep, h.1]
  simp
  rfl

/-- C5: fast successful load.  From a quiescent state with the indicator
hidden, a valid navigation followed by the iframe `load` signal (arriving
before the loading-delay timer fires, with the loaded document not an
error page) ends with both timers cancelled, `isLoading` false, the error
panel hidden, the navigated page current and its nav link active, the
document title set to "page title - app title", and the loading indicator
never shown at any point of the run. -/
theorem loadSpa_fast_success (cfg : ShellConfig) (spaId : String) (s : ShellState)
    (route : Route)
    (hroute : lookupRoute cfg.spaRoutes spaId = some route)
    (htitle : route.title ≠ "")
    (htimers : s.timers = [])
    (hnoshow : s.loadingShown = false)
    (dt : String) (hdt : dt ≠ "Error") :
    (loadSpa cfg spaId s).loadingShown = false ∧
    (handleIframeLoad cfg (FrameInspection.accessible dt false)
        (loadSpa cfg spaId s)).loadingShown = false ∧
    (handleIframeLoad cfg (FrameInspection.accessible dt false)
        (loadSpa cfg spaId s)).loading = false ∧
    (handleIframeLoad cfg (FrameInspection.accessible dt false)
        (loadSpa cfg spaId s)).timers = [] ∧
    (handleIframeLoad cfg (FrameInspection.accessible dt false)
        (loadSpa cfg spaId s)).errorShown = false ∧
    (handleIframeLoad cfg (FrameInspection.accessible dt false)
        (loadSpa cfg spaId s)).currentSpa = some spaId ∧
    (handleIframeLoad cfg (FrameInspection.accessible dt false)
        (loadSpa cfg spaId s)).activeNav = some spaId ∧
    (handleIframeLoad cfg (FrameInspection.accessible dt false)
        (loadSpa cfg spaId s)).docTitle = route.title ++ " - " ++ cfg.sidebarTitle ∧
    (handleIframeLoad cfg (FrameInspection.accessible dt false)
        (loadSpa cfg spaId s)).frameSrc = some route.path := by
  rw [loadSpa_valid_eq cfg spaId s route hroute, htimers, clearTimeoutOpt_nil,
    clearTimeoutOpt_nil]
  unfold handleIframeLoad
  dsimp only
  rw [clearTimeoutOpt_fresh_pair]
  simp [hdt, htitle, hnoshow]

/-- Witness for C5: navigating to `lang` in the demo configuration with a
load succeeding before the 300 ms delay ends `Loaded` with title
"Multi-Language - SPA Hub" and the spinner never displayed. -/
theorem loadSpa_fast_success_witness :
    (loadSpa demoShellConfig "lang" demoLoadedState).loadingShown = false ∧
    (handleIframeLoad demoShellConfig
        (FrameInspection.accessible "Multi-Language Hello World" false)
        (loadSpa demoShellConfig "lang" demoLoadedState)).loadingShown = false ∧
    (handleIframeLoad demoShellConfig
        (FrameInspection.accessible "Multi-Language Hello World" false)
        (loadSpa demoShellConfig "lang" demoLoadedState)).loading = false ∧
    (handleIframeLoad demoShellConfig
        (FrameInspection.accessible "Multi-Language Hello World" false)
        (loadSpa demoShellConfig "lang" demoLoadedState)).docTitle
      = "Multi-Language - SPA Hub" := by
  have h := loadSpa_fast_success demoShellConfig "lang" demoLoadedState
    { path := "../spa02/spa02.html", title := "Multi-Language" }
    (by decide) (by decide) rfl rfl "Multi-Language Hello World" (by decide)
  exact ⟨h.1, h.2.1, h.2.2.1, h.2.2.2.2.2.2.2.1.trans (by decide)⟩

/-! ### Cycler helper lemmas -/

/-- `find` returns the entry at the first matching index. -/
theorem jsFind_eq_some (p : LanguageEntry → Bool) (ls : List LanguageEntry) :
    ∀ (i : Nat) (l : LanguageEntry), ls[i]? = some l → p l = true →
      (ls.take i).all (fun x => !p x) = true → jsFind p ls = some l := by
  induction ls with
  | nil => intro i l hget _ _; simp at hget
  | cons x rest ih =>
    intro i l hget hp hbefore
    cases i with
    | zero =>
      simp only [List.getElem?_cons_zero, Option.some.injEq] at hget
      subst hget
      unfold jsFind
      rw [if_pos hp]
    | succ j =>
      rw [List.take_succ_cons, List.all_cons] at hbefore
      simp only [Bool.and_eq_true, Bool.not_eq_true'] at hbefore
      obtain ⟨hx, hrest⟩ := hbefore
      unfold jsFind
      rw [hx]
      simp only [Bool.false_eq_true, if_false]
      exact ih j l (by simpa using hget) hp hrest

/-- `findIndex` (started at offset `k`) returns `k` plus the first
matching index. -/
theorem jsFindIndexFrom_eq (p : LanguageEntry → Bool) (ls : List LanguageEntry) :
    ∀ (i : Nat) (l : LanguageEntry) (k : Nat), ls[i]? = some l → p l = true →
      (ls.take i).all (fun x => !p x) = true →
      jsFindIndexFrom p k ls = ((k : Int) + (i : Int)) := by
  induction ls with
  | nil => intro i l k hget _ _; simp at hget
  | cons x rest ih =>
    intro i l k hget hp hbefore
    cases i with
    | zero =>
      simp only [List.getElem?_cons_zero, Option.some.injEq] at hget
      subst hget
      unfold jsFindIndexFrom
      rw [hp]
      simp
    | succ j =>
      rw [List.take_succ_cons, List.all_cons] at hbefore
      simp only [Bool.and_eq_true, Bool.not_eq_true'] at hbefore
      obtain ⟨hx, hrest⟩ := hbefore
      unfold jsFindIndexFrom
      rw [hx]
      simp only [Bool.false_eq_true, if_false]
      rw [ih j l (k + 1) (by simpa using hget) hp hrest]
      push_cast
      omega

/-- `find` misses when no entry matches. -/
theorem jsFind_eq_none (p : LanguageEntry → Bool) (ls : List LanguageEntry)
    (h : ls.all (fun x => !p x) = true) : jsFind p ls = none := by
  induction ls with
  | nil => rfl
  | cons x rest ih =>
    rw [List.all_cons] at h
    simp only [Bool.and_eq_true, Bool.not_eq_true'] at h
    obtain ⟨hx, hrest⟩ := h
    unfold jsFind
    rw [hx]
    simp only [Bool.false_eq_true, if_false]
    exact ih hrest

/-- The `change` handler always ends by writing `findIndex`'s result into
`currentIndex`, whatever the earlier steps did. -/
theorem selectLanguage_currentIndex (cfg : CyclerConfig) (code : String) (s : CyclerState) :
    (selectLanguage cfg code s).currentIndex
      = jsFindIndex (fun x => x.code == code) s.languages := by
  unfold selectLanguage saveToStorage updateGreeting stopCycling
  cases s.cycleInterval <;> dsimp only <;>
    cases jsFind (fun x => x.code == code) s.languages <;> rfl

/-- A concrete language list (the spec's scenario subset of the metadata). -/
def demoLanguages : List LanguageEntry :=
  [{ code := "en", name := "English", greeting := "Hello World", rtl := false },
   { code := "ja", name := "Japanese", greeting := "こんにちは世界", rtl := false },
   { code := "ar", name := "Arabic", greeting := "مرحبا بالعالم", rtl := true }]

/-- Concrete status strings for the cycler. -/
def demoCyclerConfig : CyclerConfig :=
  { statusCycling := "Auto-cycling through languages..."
    statusManual := "Manual mode - select a language"
    speedUnit := "s" }

/-- A concrete cycling state: auto-cycling on `en` at index 0. -/
def demoCyclerState : CyclerState :=
  { languages := demoLanguages
    currentIndex := 0
    isCycling := true
    cycleInterval := some 0
    selectValue := "en"
    sliderValue := "2.5"
    greetingText := "Hello World"
    greetingRtl := false
    statusText := "Auto-cycling through languages..."
    statusCyclingClass := true
    speedValueText := "2.5s"
    store := Store.empty
    liveIntervals := [0]
    nextIntervalId := 1 }

/-- C7: `selectLanguage(code)` (the language-selector change handler).  For
a code whose first occurrence in the language list is the entry `l` at
index `i`: auto-cycling stops (`isCycling` false, interval cleared, status
switched to the manual message), the displayed greeting becomes `l`'s text
with the `rtl` class present iff `l.rtl`, the code and the current slider
interval are persisted under the `spa02` namespace, and `currentIndex`
becomes `i`.  For a code matching no entry, the greeting display is left
untouched (the miss is only logged; there is no error surface in the
state). -/
theorem selectLanguage_spec (cfg : CyclerConfig) (code : String) (s : CyclerState) :
    (∀ (i : Nat) (l : LanguageEntry),
      s.languages[i]? = some l → l.code = code →
      (s.languages.take i).all (fun x => !(x.code == code)) = true →
      ((selectLanguage cfg code s).isCycling = false ∧
       (selectLanguage cfg code s).cycleInterval = none ∧
       (selectLanguage cfg code s).greetingText = l.greeting ∧
       (selectLanguage cfg code s).greetingRtl = l.rtl ∧
       (selectLanguage cfg code s).currentIndex = (i : Int) ∧
       (selectLanguage cfg code s).store (Utils.finalKey (some "spa02") "selectedLanguage")
         = some (stringifyJsString code) ∧
       (selectLanguage cfg code s).store (Utils.finalKey (some "spa02") "cycleSpeed")
         = some (stringifyJsString s.sliderValue) ∧
       (selectLanguage cfg code s).statusText = cfg.statusManual)) ∧
    (s.languages.all (fun x => !(x.code == code)) = true →
      ((selectLanguage cfg code s).greetingText = s.greetingText ∧
       (selectLanguage cfg code s).greetingRtl = s.greetingRtl ∧
       (selectLanguage cfg code s).isCycling = false)) := by
  constructor
  · intro i l hget hcode hbefore
    have hp : (fun x : LanguageEntry => x.code == code) l = true := by
      simp [hcode]
    have hfind := jsFind_eq_some _ s.languages i l hget hp hbefore
    have hidx : jsFindIndex (fun x => x.code == code) s.languages = (i : Int) := by
      unfold jsFindIndex
      rw [jsFindIndexFrom_eq _ s.languages i l 0 hget hp hbefore]
      simp
    have hcur := selectLanguage_currentIndex cfg code s
    rw [hidx] at hcur
    refine ⟨?_, ?_, ?_, ?_, hcur, ?_, ?_, ?_⟩ <;>
      unfold selectLanguage saveToStorage updateGreeting stopCycling
        Utils.storage.set Store.setItem <;>
      cases s.cycleInterval <;> dsimp only <;> rw [hfind] <;> rfl
  · intro hall
    have hfind := jsFind_eq_none (fun x => x.code == code) s.languages hall
    refine ⟨?_, ?_, ?_⟩ <;>
      unfold selectLanguage saveToStorage updateGreeting stopCycling <;>
      cases s.cycleInterval <;> dsimp only <;> rw [hfind]

/-- Witness for C7: selecting `ar` stops cycling, displays the Arabic
greeting with the RTL class, moves `currentIndex` to 2, and persists the
code. -/
theorem selectLanguage_spec_witness :
    (selectLanguage demoCyclerConfig "ar" demoCyclerState).isCycling = false ∧
    (selectLanguage demoCyclerConfig "ar" demoCyclerState).greetingText = "مرحبا بالعالم" ∧
    (selectLanguage demoCyclerConfig "ar" demoCyclerState).greetingRtl = true ∧
    (selectLanguage demoCyclerConfig "ar" demoCyclerState).currentIndex = 2 ∧
    (selectLanguage demoCyclerConfig "ar" demoCyclerState).store
        (Utils.finalKey (some "spa02") "selectedLanguage")
      = some (stringifyJsString "ar") := by
  have h := (selectLanguage_spec demoCyclerConfig "ar" demoCyclerState).1 2
    { code := "ar", name := "Arabic", greeting := "مرحبا بالعالم", rtl := true }
    (by decide) rfl (by decide)
  exact ⟨h.1, h.2.2.1, h.2.2.2.1, h.2.2.2.2.1, h.2.2.2.2.2.1⟩

/-- Counterexample to C8 as stated: the change handler is an operation that
mutates `currentIndex`, and for a code absent from the list it writes
`findIndex`'s miss sentinel `-1`, violating `0 ≤ currentIndex` on a
non-empty list. -/
theorem selectLanguage_unknown_breaks_index_invariant :
    (selectLanguage demoCyclerConfig "xx" demoCyclerState).currentIndex = -1 ∧
    ¬(0 ≤ (selectLanguage demoCyclerConfig "xx" demoCyclerState).currentIndex) := by
  decide

/-- C8 amended: on a non-empty language list, each auto-cycle tick sets
`currentIndex` to `(currentIndex + 1) % n` (JavaScript truncated `%`,
which from any reachable index `≥ -1` lands in `[0, n)`; in particular the
last index wraps to 0), and selecting a code present in the list also
lands in `[0, n)`; only the silent-failure path of selecting an absent
code leaves the out-of-range sentinel `-1`, which the next tick returns to
0. -/
theorem cycleTick_index_invariant (s : CyclerState)
    (hne : 0 < s.languages.length)
    (hge : -1 ≤ s.currentIndex) :
    (cycleTick s).currentIndex = (s.currentIndex + 1).tmod (s.languages.length : Int) ∧
    0 ≤ (cycleTick s).currentIndex ∧
    (cycleTick s).currentIndex < (s.languages.length : Int) ∧
    (s.currentIndex = (s.languages.length : Int) - 1 → (cycleTick s).currentIndex = 0) ∧
    (∀ (cfg : CyclerConfig) (code : String) (i : Nat) (l : LanguageEntry),
      s.languages[i]? = some l → l.code = code →
      (s.languages.take i).all (fun x => !(x.code == code)) = true →
      0 ≤ (selectLanguage cfg code s).currentIndex ∧
      (selectLanguage cfg code s).currentIndex < (s.languages.length : Int)) := by
  have hn : (0 : Int) < (s.languages.length : Int) := by exact_mod_cast hne
  have htick : (cycleTick s).currentIndex
      = (s.currentIndex + 1).tmod (s.languages.length : Int) := by
    unfold cycleTick
    dsimp only
    cases s.languages[((s.currentIndex + 1).tmod (s.languages.length : Int)).toNat]? with
    | none => rfl
    | some l =>
      unfold saveToStorage updateGreeting
      dsimp only
      cases jsFind (fun x => x.code == l.code) s.languages <;> rfl
  have hmod : (s.currentIndex + 1).tmod (s.languages.length : Int)
      = (s.currentIndex + 1) % (s.languages.length : Int) :=
    Int.tmod_eq_emod (by omega) (by omega)
  refine ⟨htick, ?_, ?_, ?_, ?_⟩
  · rw [htick, hmod]
    exact Int.emod_nonneg _ (by omega)
  · rw [htick, hmod]
    exact Int.emod_lt_of_pos _ hn
  · intro hlast
    rw [htick, hlast]
    simp
  · intro cfg code i l hget hcode hbefore
    have hp : (fun x : LanguageEntry => x.code == code) l = true := by
      simp [hcode]
    have hidx : jsFindIndex (fun x => x.code == code) s.languages = (i : Int) := by
      unfold jsFindIndex
      rw [jsFindIndexFrom_eq _ s.languages i l 0 hget hp hbefore]
      simp
    have hcur := selectLanguage_currentIndex cfg code s
    rw [hidx] at hcur
    have hlt : i < s.languages.length := by
      by_contra hcon
      rw [List.getElem?_eq_none (by omega)] at hget
      exact Option.noConfusion hget
    rw [hcur]
    constructor
    · exact_mod_cast Nat.zero_le i
    · exact_mod_cast hlt

/-- Witness for C8's amended theorem: from the last index (2 of 3) one
tick wraps to 0, and selecting the valid code `ja` lands in range. -/
theorem cycleTick_index_invariant_witness :
    (cycleTick { demoCyclerState with currentIndex := 2 }).currentIndex = 0 ∧
    0 ≤ (selectLanguage demoCyclerConfig "ja"
        { demoCyclerState with currentIndex := 2 }).currentIndex := by
  have h := cycleTick_index_invariant { demoCyclerState with currentIndex := 2 }
    (by decide) (by decide)
  refine ⟨h.2.2.2.1 (by decide), ?_⟩
  exact (h.2.2.2.2 demoCyclerConfig "ja" 1
    { code := "ja", name := "Japanese", greeting := "こんにちは世界", rtl := false }
    (by decide) rfl (by decide)).1
